import Mathlib

/-!
Verification of the clumsy user-lifecycle control plane (usermgrd, mkhomedird,
kadm, nss) against its natural-language specification.  The Python sources are
shallowly embedded: handlers become pure Lean functions over explicit state and
an environment of injected external outcomes (LDAP, Kerberos, NSS, sibling
daemons); the process-wide reservation sets and the homedir delete-token map
become explicit values threaded through the models.
-/

set_option autoImplicit false

namespace Clumsy

/-- A passwd entry as returned by nss.getUser: dict with name, homedir, uid,
gid (src/clumsy/nss.py). -/
structure PwEntry where
  name : String
  homedir : String
  uid : Nat
  gid : Nat
  deriving DecidableEq

/-- A group entry as returned by grp.getgrnam / grp.getgrgid (struct_group:
name, gid, member list). -/
structure GroupRec where
  name : String
  gid : Nat
  mem : List String
  deriving DecidableEq

/-- Python str.startswith, over the character lists (String.startsWith does
not reduce inside the kernel). -/
def startsWithStr (s p : String) : Bool :=
  p.data.isPrefixOf s.data

/-- Split a character list at every occurrence of a separator character
(Python str.split with a one-character separator). -/
def splitCharAux (c : Char) : List Char → List Char → List (List Char)
  | [], acc => [acc.reverse]
  | x :: xs, acc =>
    if x = c then acc.reverse :: splitCharAux c xs []
    else splitCharAux c xs (x :: acc)

/-- Python s.split(sep) for a one-character separator. -/
def splitChar (c : Char) (s : String) : List String :=
  (splitCharAux c s.data []).map String.mk

/-- Python l.split(sep, 1) at the first occurrence of a ": " separator:
the text before it and the rest, or none when the separator is absent. -/
def splitOnceColonSpace : List Char → Option (List Char × List Char)
  | [] => none
  | x :: xs =>
    if x = ':' then
      match xs with
      | y :: ys => if y = ' ' then some ([], ys) else
          match splitOnceColonSpace xs with
          | none => none
          | some (a, b) => some (x :: a, b)
      | [] => none
    else
      match splitOnceColonSpace xs with
      | none => none
      | some (a, b) => some (x :: a, b)

/-- Python str.replace(pat, repl), left to right, non-overlapping; the fuel is
an upper bound on the number of positions examined. -/
def replaceFuel (pat repl : List Char) : Nat → List Char → List Char
  | _, [] => []
  | 0, l => l
  | fuel + 1, x :: xs =>
    if pat ≠ [] ∧ pat.isPrefixOf (x :: xs) then
      repl ++ replaceFuel pat repl fuel (List.drop (pat.length - 1) xs)
    else x :: replaceFuel pat repl fuel xs

/-- Python s.replace(pat, repl). -/
def replaceStr (s pat repl : String) : String :=
  String.mk (replaceFuel pat.data repl.data s.data.length s.data)

/-! ## Rollback scope (usermgrd.withRollback over contextlib.AsyncExitStack)

`withRollback` wraps a handler in an `AsyncExitStack`; the handler registers
compensations with `push_async_callback` or `callback`.  If the handler raises,
the stack unwinds the callbacks newest first; if it returns, `pop_all()`
discards them unrun.  We embed a handler as the sequence of visible events it
performs against the stack: pushes (of either kind) and at most one raise. -/

/-- One handler interaction with the exit stack: an async compensation push
(push_async_callback), a sync compensation push (callback), or an exception
escaping the handler body. -/
inductive SEvent (α : Type) where
  | pushAsync (c : α)
  | callback (c : α)
  | fail
  deriving DecidableEq

/-- Run the handler body against the exit stack: process events in order,
maintaining the callback stack (head = most recently registered), stopping at
the first raised exception.  Returns whether the body raised, and the stack. -/
def runStack {α : Type} : List (SEvent α) → List α → Bool × List α
  | [], st => (false, st)
  | .pushAsync c :: rest, st => runStack rest (c :: st)
  | .callback c :: rest, st => runStack rest (c :: st)
  | .fail :: _, st => (true, st)

/-- usermgrd.withRollback: the compensations that actually execute, in
execution order.  On an exception the AsyncExitStack unwinds newest first; on
normal return `pop_all ()` discards the stack, so nothing runs. -/
def withRollback {α : Type} (events : List (SEvent α)) : List α :=
  match runStack events [] with
  | (true, st) => st
  | (false, _) => []

/-- Turn a list of compensations (flag = pushed with push_async_callback) into
the handler event sequence that registers them in order. -/
def pushEvents {α : Type} (cs : List (Bool × α)) : List (SEvent α) :=
  cs.map (fun p => if p.1 then SEvent.pushAsync p.2 else SEvent.callback p.2)

theorem runStack_pushEvents {α : Type} (cs : List (Bool × α)) (tail : List (SEvent α))
    (st : List α) :
    runStack (pushEvents cs ++ tail) st = runStack tail ((cs.map Prod.snd).reverse ++ st) := by
  induction cs generalizing st with
  | nil => simp [pushEvents]
  | cons c rest ih =>
    cases c with
    | mk b x =>
      cases b <;> simp only [pushEvents, List.map_cons, List.map, if_true, if_false,
        Bool.false_eq_true, ite_false, ite_true, List.cons_append, runStack,
        List.reverse_cons, List.append_assoc, List.singleton_append] <;>
        simpa [pushEvents] using ih (x :: st)

/-! ## Kerberos admin driver (src/clumsy/kadm.py)

`KAdm` spawns `kadmin -k -t <keytab> -p <user>` plus subcommand arguments and
drives an expect-style dialogue over stdin/stdout.  We embed one subprocess run
as the chunks its stdout yields to the three 512-byte reads plus its exit
code, and record the command line and every stdin write the driver performs. -/

/-- KAdm.commonArgs. -/
def commonArgs (user keytabFile : String) : List String :=
  ["kadmin", "-k", "-t", keytabFile, "-p", user]

/-- What one addPrincipal subprocess presents to the driver: the results of
the three bounded stdout reads, and the exit code awaited at the end. -/
structure ProcOut where
  read1 : String
  read2 : String
  read3 : String
  exitCode : Nat
  deriving DecidableEq

/-- Outcome of KAdm.addPrincipal: an assert on an unexpected prompt, a
KAdmException on non-zero exit, or success. -/
inductive AddPrincOutcome where
  | assertFailed
  | kadmException
  | ok
  deriving DecidableEq

/-- Everything observable about one KAdm.addPrincipal call: the argv it
spawned, the stdin writes it performed (in order), and how it ended. -/
structure AddPrincRun where
  cmd : List String
  stdinWrites : List String
  outcome : AddPrincOutcome
  deriving DecidableEq

/-- The argv KAdm.addPrincipal spawns; the password is not among its
inputs. -/
def addPrincipalCmd (user keytabFile expire name : String) : List String :=
  commonArgs user keytabFile ++
    ["add_principal", "+requires_preauth", "-allow_svr", "-expire", expire, name]

/-- The expect dialogue of KAdm.addPrincipal: read the first prompt, write
the password and a newline, read the re-enter prompt, write the password
again, read the final newline, close stdin, await the exit code (non-zero
raises KAdmException; an unexpected prompt trips an assert).  Returns the
stdin writes performed and the outcome. -/
def addPrincipalDialogue (password : String) (proc : ProcOut) :
    List String × AddPrincOutcome :=
  if startsWithStr proc.read1 "Enter password for principal " then
    let w1 := [password ++ "\n"]
    if startsWithStr proc.read2 "\nRe-enter password for principal " then
      let w2 := w1 ++ [password ++ "\n"]
      if proc.read3 = "\n" then
        if proc.exitCode ≠ 0 then (w2, .kadmException) else (w2, .ok)
      else (w2, .assertFailed)
    else (w1, .assertFailed)
  else ([], .assertFailed)

/-- KAdm.addPrincipal: spawn the argv and drive the password dialogue over
stdin/stdout.  The password is only ever written to stdin. -/
def addPrincipal (user keytabFile name password expire : String) (proc : ProcOut) :
    AddPrincRun :=
  ⟨addPrincipalCmd user keytabFile expire name,
    (addPrincipalDialogue password proc).1,
    (addPrincipalDialogue password proc).2⟩

/-- One `key: value` line of kadmin get_principal output; lines without a
separator raise ValueError in the source and are skipped. -/
def parsePrincLine (l : String) : Option (String × String) :=
  match splitOnceColonSpace l.data with
  | none => none
  | some (a, b) => some (String.mk a, String.mk b)

/-- KAdm.getPrincipal: non-zero exit raises KeyError (the not-found signal);
otherwise the stdout is parsed into key/value pairs. -/
def getPrincipal (stdout : String) (exitCode : Nat) :
    Except Unit (List (String × String)) :=
  if exitCode ≠ 0 then .error ()
  else .ok ((splitChar '\n' stdout).filterMap parsePrincLine)

/-- KAdm.deletePrincipal argv. -/
def deletePrincipalCmd (user keytabFile name : String) : List String :=
  commonArgs user keytabFile ++ ["delete_principal", "-force", name]

/-- KAdm.deletePrincipal raises KAdmException exactly on non-zero exit. -/
def deletePrincipalRaises (exitCode : Nat) : Bool :=
  exitCode ≠ 0

/-! ## Home-directory service, DELETE /user/<user> (src/clumsy/mkhomedird.py)

The process-wide `deleteToken` dict maps a token string to the issue time and
the passwd entry it was issued for.  We embed it as an association list and the
handler as a pure function of the ambient environment (NSS view, current time,
the stream of randomSecret draws, the filesystem view). -/

/-- One entry of config.DIRECTORIES: path template plus its create / delete /
deleteGroup settings. -/
structure DirProps where
  create : Bool
  del : Bool
  delGroup : Bool
  deriving DecidableEq

/-- mkhomedird configuration: the DIRECTORIES mapping. -/
structure HomeConfig where
  directories : List (String × DirProps)
  deriving DecidableEq

/-- Python str.format over the userdata dict (keys name, homedir, uid, gid). -/
def formatDir (t : String) (u : PwEntry) : String :=
  replaceStr (replaceStr (replaceStr (replaceStr t "{name}" u.name)
    "{homedir}" u.homedir) "{uid}" (toString u.uid)) "{gid}" (toString u.gid)

/-- The ambient world of one deleteHome request. -/
structure HomeEnv where
  nss : String → Option PwEntry
  now : Nat
  tokenCandidates : List String
  pathExists : String → Bool

/-- The deleteToken dict: token → (issue time, userdata). -/
def TokenMap : Type := List (String × Nat × PwEntry)

/-- Dict lookup in the deleteToken map. -/
def lookupToken : List (String × Nat × PwEntry) → String → Option (Nat × PwEntry)
  | [], _ => none
  | (t, d) :: rest, tok => if t = tok then some d else lookupToken rest tok

/-- The `while True` loop drawing randomSecret() until the draw is not yet a
key of deleteToken: the first fresh candidate of the modelled draw stream. -/
def freshToken (m : List (String × Nat × PwEntry)) (cands : List String) : Option String :=
  cands.find? (fun t => (lookupToken m t).isNone)

/-- deleteHome responses; noFreshToken models the (never-terminating) case of
the draw stream being exhausted. -/
inductive HomeResp where
  | userNotFound
  | again (token : String)
  | noFreshToken
  | tokenInvalid
  | tokenExpired
  | userExists
  | okDeleted
  deriving DecidableEq

/-- HTTP status code of each deleteHome response (response.json status=…). -/
def homeRespCode : HomeResp → Nat
  | .userNotFound => 404
  | .again _ => 200
  | .noFreshToken => 500
  | .tokenInvalid => 403
  | .tokenExpired => 403
  | .userExists => 403
  | .okDeleted => 200

/-- The status string in each deleteHome JSON body. -/
def homeRespStatus : HomeResp → String
  | .userNotFound => "user_not_found"
  | .again _ => "again"
  | .noFreshToken => "bug"
  | .tokenInvalid => "token_invalid"
  | .tokenExpired => "token_expired"
  | .userExists => "user_exists"
  | .okDeleted => "ok"

/-- Result of one deleteHome request: the response, the deleteToken map
afterwards, the directories passed to shutil.rmtree, and the (unformatted)
deleteGroup directories passed to revokeAcl. -/
structure HomeResult where
  resp : HomeResp
  deleteToken : List (String × Nat × PwEntry)
  removedDirs : List String
  revokeDirs : List String
  deriving DecidableEq

/-- mkhomedird.deleteHome.  Without a token: 404 if the user does not resolve,
else issue a fresh token recording (now, userdata) and answer again.  With a
token: unknown token or a user name differing from the recorded one → 403
token_invalid; older than 60 seconds → 403 token_expired; user still resolving
→ 403 user_exists; otherwise rmtree every existing directory with delete=True,
revoke ACLs on the deleteGroup directories, and answer ok. -/
def deleteHome (cfg : HomeConfig) (env : HomeEnv) (st : List (String × Nat × PwEntry))
    (user : String) (token : Option String) : HomeResult :=
  match token with
  | none =>
    match env.nss user with
    | none => ⟨.userNotFound, st, [], []⟩
    | some ud =>
      match freshToken st env.tokenCandidates with
      | none => ⟨.noFreshToken, st, [], []⟩
      | some t => ⟨.again t, (t, env.now, ud) :: st, [], []⟩
  | some tok =>
    match lookupToken st tok with
    | none => ⟨.tokenInvalid, st, [], []⟩
    | some (date, ud) =>
      if user ≠ ud.name then ⟨.tokenInvalid, st, [], []⟩
      else if env.now - date > 60 then ⟨.tokenExpired, st, [], []⟩
      else
        match env.nss ud.name with
        | some _ => ⟨.userExists, st, [], []⟩
        | none =>
          let removed := cfg.directories.filterMap (fun p =>
            if p.2.del ∧ env.pathExists (formatDir p.1 ud) then some (formatDir p.1 ud)
            else none)
          let revoke := cfg.directories.filterMap (fun p =>
            if p.2.delGroup then some p.1 else none)
          ⟨.okDeleted, st, removed, revoke⟩

/-! ## usermgrd: consistency wait, allocator and the create-user pipeline
(src/clumsy/usermgrd.py) -/

/-- Outcome of one flushUserCache call: ok, a non-ok status in the response
(ServerError flush_failed), or aiohttp.ClientError (ServerError
nscdflushd_connect). -/
inductive FlushOutcome where
  | ok
  | flushFailed
  | connectFailed
  deriving DecidableEq

/-- The ambient NSS view during the consistency wait: per iteration, the flush
result and the outcomes of getUser(user) and getUser(uid) (none = KeyError). -/
structure WaitEnv where
  flush : Nat → FlushOutcome
  byName : Nat → Option PwEntry
  byUid : Nat → Option PwEntry

/-- How the `for i in range (60)` consistency loop in addUser ends. -/
inductive WaitOutcome where
  | ok
  | mismatch
  | timeout
  | flushFailed
  | flushConnect
  deriving DecidableEq

/-- The consistency loop body, by remaining fuel and current iteration index:
flush first; if both lookups resolve, compare (differing records raise
user_mismatch, agreeing ones break the loop); a KeyError from either lookup
sleeps a second and retries. -/
def waitLoop (env : WaitEnv) : Nat → Nat → WaitOutcome
  | 0, _ => .timeout
  | fuel + 1, i =>
    match env.flush i with
    | .flushFailed => .flushFailed
    | .connectFailed => .flushConnect
    | .ok =>
      match env.byName i, env.byUid i with
      | some a, some b => if a ≠ b then .mismatch else .ok
      | _, _ => waitLoop env fuel (i + 1)

/-- The consistency wait of addUser: up to 60 iterations starting at 0. -/
def consistencyWait (env : WaitEnv) : WaitOutcome :=
  waitLoop env 60 0

/-- Number of loop iterations actually executed by waitLoop. -/
def waitIters (env : WaitEnv) : Nat → Nat → Nat
  | 0, _ => 0
  | fuel + 1, i =>
    match env.flush i with
    | .flushFailed => 1
    | .connectFailed => 1
    | .ok =>
      match env.byName i, env.byUid i with
      | some _, some _ => 1
      | _, _ => 1 + waitIters env fuel (i + 1)

/-- First iteration index in the window at which both lookups resolve. -/
def firstBothIdx (env : WaitEnv) : Nat → Nat → Option Nat
  | 0, _ => none
  | fuel + 1, i =>
    if (env.byName i).isSome ∧ (env.byUid i).isSome then some i
    else firstBothIdx env fuel (i + 1)

/-- Modelled from the spec: usermgrd imports uintToQuint from clumsy.uid,
which is not part of the sources; §4.4 of the specification describes the
generated login name as user-<quint> with quint the uid rendered in a
base-32-like alphabet, two 16-bit groups.  We model the proquint encoding:
each 16-bit group becomes five letters, groups joined by a hyphen. -/
def quintConsonants : List Char :=
  ['b', 'd', 'f', 'g', 'h', 'j', 'k', 'l', 'm', 'n', 'p', 'r', 's', 't', 'v', 'z']

/-- Modelled from the spec: the vowel half of the proquint alphabet. -/
def quintVowels : List Char :=
  ['a', 'i', 'o', 'u']

/-- Modelled from the spec: one 16-bit proquint group (consonant-vowel
pattern c v c v c over the bit fields 4-2-4-2-4). -/
def quintWord (w : Nat) : String :=
  String.mk [quintConsonants.getD (w / 4096 % 16) 'b',
    quintVowels.getD (w / 1024 % 4) 'a',
    quintConsonants.getD (w / 64 % 16) 'b',
    quintVowels.getD (w / 16 % 4) 'a',
    quintConsonants.getD (w % 16) 'b']

/-- Modelled from the spec: uid.uintToQuint, rendering n as `words` 16-bit
proquint groups, most significant first, joined by hyphens. -/
def uintToQuint (n : Nat) (words : Nat) : String :=
  String.intercalate "-"
    ((List.range words).map (fun i => quintWord (n / 2 ^ (16 * (words - 1 - i)) % 65536)))

/-- The spec side of the login-name invariant, from the spec words only:
membership in the regular expression [a-z][a-z0-9]\x7b2,15\x7d. -/
def specUsernamePattern (s : String) : Bool :=
  match s.data with
  | [] => false
  | c :: rest =>
    (decide ('a' ≤ c) && decide (c ≤ 'z')) && decide (2 ≤ rest.length) &&
      decide (rest.length ≤ 15) &&
      rest.all (fun d =>
        (decide ('a' ≤ d) && decide (d ≤ 'z')) || (decide ('0' ≤ d) && decide (d ≤ '9')))

/-- user.split ('@', 1)[0]: the principal local part. -/
def localPart (s : String) : String :=
  String.mk (s.data.takeWhile (fun c => c ≠ Char.ofNat 64))

/-- Python set.add on the modelled reservation set. -/
def setAdd (x : Option Nat) (s : List (Option Nat)) : List (Option Nat) :=
  if x ∈ s then s else x :: s

/-- Python set.remove on the modelled reservation set. -/
def setRemove (x : Option Nat) (s : List (Option Nat)) : List (Option Nat) :=
  s.filter (fun y => y ≠ x)

/-- usermgrd.findUnusedUser over a list of uid candidates: skip candidates in
reservedUsers, skip candidates getUser resolves, pick the first remaining one
(None if the candidates run out).  reservedUsers may contain None, so its
elements are Option Nat. -/
def findUnusedUser (resolves : Nat → Bool) (reserved : List (Option Nat)) :
    List Nat → Option Nat
  | [] => none
  | c :: rest =>
    if some c ∈ reserved then findUnusedUser resolves reserved rest
    else if resolves c then findUnusedUser resolves reserved rest
    else some c

/-- usermgrd.findUnusedGroup over group-name (str, grp.getgrnam) or gid (int,
grp.getgrgid) candidates, against the reservedGroups set. -/
def findUnusedGroup (resolvesName : String → Bool) (resolvesGid : Nat → Bool)
    (reserved : List (Option (String ⊕ Nat))) :
    List (String ⊕ Nat) → Option (String ⊕ Nat)
  | [] => none
  | c :: rest =>
    if reserved.any (fun y => y = some c) then
      findUnusedGroup resolvesName resolvesGid reserved rest
    else
      match c with
      | .inl s =>
        if resolvesName s then findUnusedGroup resolvesName resolvesGid reserved rest
        else some c
      | .inr g =>
        if resolvesGid g then findUnusedGroup resolvesName resolvesGid reserved rest
        else some c

/-- Whether a group candidate resolves: grp.getgrnam for a name (str),
grp.getgrgid for a gid (int). -/
def groupResolves (resolvesName : String → Bool) (resolvesGid : Nat → Bool) :
    String ⊕ Nat → Bool
  | .inl s => resolvesName s
  | .inr n => resolvesGid n

/-- Python set.add on the modelled reservedGroups set. -/
def setAddGroup (x : Option (String ⊕ Nat)) (s : List (Option (String ⊕ Nat))) :
    List (Option (String ⊕ Nat)) :=
  if s.any (fun y => y = x) then s else x :: s

/-- The durable cluster state the create-user pipeline touches: LDAP person
entries under LDAP_BASE_PEOPLE (by uid attribute), LDAP group entries under
LDAP_BASE_GROUP (by cn), Kerberos principals, home directories. -/
structure ClusterState where
  people : List String
  groups : List String
  principals : List String
  homedirs : List String
  deriving DecidableEq

/-- A compensation registered on the rollback scope by addUser. -/
inductive Comp where
  | flushCache
  | delPerson (n : String)
  | delGroup (n : String)
  | delPrincipal (n : String)
  deriving DecidableEq

/-- Effect of one compensation on the cluster state. -/
def applyComp : Comp → ClusterState → ClusterState
  | .flushCache, s => s
  | .delPerson n, s => { s with people := s.people.filter (fun x => x ≠ n) }
  | .delGroup n, s => { s with groups := s.groups.filter (fun x => x ≠ n) }
  | .delPrincipal n, s => { s with principals := s.principals.filter (fun x => x ≠ n) }

/-- Unwinding the rollback stack (head = newest) over the cluster state. -/
def runRollback (stack : List Comp) (s : ClusterState) : ClusterState :=
  stack.foldl (fun s c => applyComp c s) s

/-- usermgrd HTTP responses: 201 with the created-account body, or sanic
ServerError (500) / Forbidden (403) / NotFound (404) with a status string. -/
inductive UResp where
  | created (user : String) (password : String) (uid : Nat) (gid : Nat)
  | okJson
  | serverError (status : String)
  | forbidden (status : Option String)
  | notFound (status : String)
  deriving DecidableEq

/-- HTTP status code of a usermgrd response. -/
def uRespCode : UResp → Nat
  | .created _ _ _ _ => 201
  | .okJson => 200
  | .serverError _ => 500
  | .forbidden _ => 403
  | .notFound _ => 404

/-- Is the response the 201 created one? -/
def isCreated : UResp → Bool
  | .created _ _ _ _ => true
  | _ => false

/-- Configuration options the usermgrd handlers read. -/
structure UsermgrdConfig where
  minUid : Nat
  maxUid : Nat
  minGid : Nat
  maxGid : Nat
  authorizationCreate : String

/-- Injected outcomes of everything external to addUser: the authenticated
principal, the 100 randrange draws, the allocator NSS view, the per-iteration
consistency-wait view, the kadmin result, the mkhomedird response body status
(none = aiohttp.ClientError), and the generated password. -/
structure AddUserEnv where
  authUser : String
  candidates : List Nat
  nssUidTaken : Nat → Bool
  flush : Nat → FlushOutcome
  byName : Nat → Option PwEntry
  byUid : Nat → Option PwEntry
  kadmOk : Bool
  homedirResp : Option String
  password : String

/-- Everything observable about one addUser request: the response, the cluster
state afterwards, the compensations that were executed (in execution order),
the reservation set after the request, and a snapshot of the reservation set
at the moment the Kerberos step runs (none if it is never reached). -/
structure AddUserResult where
  resp : UResp
  state : ClusterState
  rollbackRan : List Comp
  reservedFinal : List (Option Nat)
  reservedAtKerberos : Option (List (Option Nat))
  deriving DecidableEq

/-- usermgrd.addUser.  403 unless the principal local part equals
AUTHORIZATION_CREATE; reserve a uid from the 100 draws (500 uid if none, with
Python falsiness also rejecting 0); derive the login name user-<quint>; add
the LDAP person entry (500 user_exists if present) pushing flush-cache and
entry-delete compensations; add the primary group (500 group_exists if
present) pushing its delete; leave the reservation scope; run the consistency
wait (500 user_mismatch / user_add_failed, or the flush errors); add the
Kerberos principal (500 kerberos_failed) pushing its delete; create the home
directory via mkhomedird (500 mkhomedird_connect / mkhomedir_failed); return
201.  On any error the rollback stack unwinds newest-first before the error
response is returned; on success it is discarded. -/
def addUser (cfg : UsermgrdConfig) (env : AddUserEnv) (st : ClusterState)
    (reserved : List (Option Nat)) : AddUserResult :=
  if localPart env.authUser ≠ cfg.authorizationCreate then
    ⟨.forbidden none, st, [], reserved, none⟩
  else
    let chosen := findUnusedUser env.nssUidTaken reserved env.candidates
    let rOut := setRemove chosen (setAdd chosen reserved)
    match chosen with
    | none => ⟨.serverError "uid", st, [], rOut, none⟩
    | some uid =>
      if uid = 0 then ⟨.serverError "uid", st, [], rOut, none⟩
      else
        let user := "user-" ++ uintToQuint uid 2
        if user ∈ st.people then
          ⟨.serverError "user_exists", st, [], rOut, none⟩
        else
          let st₁ : ClusterState := { st with people := user :: st.people }
          let stack₁ : List Comp := [.delPerson user, .flushCache]
          if user ∈ st₁.groups then
            ⟨.serverError "group_exists", runRollback stack₁ st₁, stack₁, rOut, none⟩
          else
            let st₂ : ClusterState := { st₁ with groups := user :: st₁.groups }
            let stack₂ : List Comp := .delGroup user :: stack₁
            match consistencyWait ⟨env.flush, env.byName, env.byUid⟩ with
            | .flushFailed =>
              ⟨.serverError "flush_failed", runRollback stack₂ st₂, stack₂, rOut, none⟩
            | .flushConnect =>
              ⟨.serverError "nscdflushd_connect", runRollback stack₂ st₂, stack₂, rOut, none⟩
            | .mismatch =>
              ⟨.serverError "user_mismatch", runRollback stack₂ st₂, stack₂, rOut, none⟩
            | .timeout =>
              ⟨.serverError "user_add_failed", runRollback stack₂ st₂, stack₂, rOut, none⟩
            | .ok =>
              if env.kadmOk then
                let st₃ : ClusterState := { st₂ with principals := user :: st₂.principals }
                let stack₃ : List Comp := .delPrincipal user :: stack₂
                match env.homedirResp with
                | none =>
                  ⟨.serverError "mkhomedird_connect", runRollback stack₃ st₃, stack₃, rOut,
                    some rOut⟩
                | some s =>
                  if s ≠ "ok" then
                    ⟨.serverError "mkhomedir_failed", runRollback stack₃ st₃, stack₃, rOut,
                      some rOut⟩
                  else
                    ⟨.created user env.password uid uid,
                      { st₃ with homedirs := user :: st₃.homedirs }, [], rOut, some rOut⟩
              else
                ⟨.serverError "kerberos_failed", runRollback stack₂ st₂, stack₂, rOut,
                  some rOut⟩

/-! ## usermgrd.deleteUser (DELETE /user) -/

/-- One call to a collaborating external system (Kerberos, mkhomedird, LDAP,
nscdflushd), in the order the handler performs them. -/
inductive ExtCall where
  | kadm
  | homedir
  | ldap
  | flush
  deriving DecidableEq

/-- Outcome of kadm.getPrincipal within deleteUser: principal found, KeyError
(warning, the principal is already gone), or KAdmException. -/
inductive KGetOutcome where
  | found
  | gone
  | failed
  deriving DecidableEq

/-- Injected outcomes of the collaborators of deleteUser. -/
structure DeleteUserEnv where
  nss : String → Option PwEntry
  kadmGet : KGetOutcome
  kadmDeleteOk : Bool
  homedirToken : Option (String × Option String)
  gcGids : List Nat
  gcHomedirOk : Bool
  flushResult : FlushOutcome
  homedirFinal : Option String

/-- Everything observable about one deleteUser request: the response and the
external calls performed before it was produced. -/
structure DeleteUserResult where
  resp : UResp
  calls : List ExtCall
  deriving DecidableEq

/-- deleteUser, from the LDAP phase on: delete the person and primary-group
entries (NoSuchObject is a warning), strip secondary memberships, garbage
collect empty groups (whose homedir call may fail), flush the cache, then the
final tokened homedir delete. -/
def deleteUserLdapPhase (env : DeleteUserEnv) (token : Option String)
    (calls : List ExtCall) : DeleteUserResult :=
  let calls := calls ++ [.ldap]
  if env.gcGids ≠ [] ∧ env.gcHomedirOk = false then
    ⟨.serverError "mkhomedir_group_delete", calls ++ [.homedir]⟩
  else
    let calls := if env.gcGids ≠ [] then calls ++ [.homedir] else calls
    match env.flushResult with
    | .flushFailed => ⟨.serverError "flush_failed", calls ++ [.flush]⟩
    | .connectFailed => ⟨.serverError "nscdflushd_connect", calls ++ [.flush]⟩
    | .ok =>
      let calls := calls ++ [.flush]
      match token with
      | none => ⟨.serverError "bug", calls⟩
      | some _ =>
        match env.homedirFinal with
        | none => ⟨.serverError "mkhomedird_connect_delete", calls ++ [.homedir]⟩
        | some s =>
          if s ≠ "ok" then ⟨.serverError "mkhomedir_delete", calls ++ [.homedir]⟩
          else ⟨.okJson, calls ++ [.homedir]⟩

/-- usermgrd.deleteUser.  The handler always operates on the local part of the
authenticated principal: resolve it (KeyError → 404 user_not_found), require
MIN_UID ≤ uid < MAX_UID (else 403 unauthorized) — both before any external
call — then disable the Kerberos principal (a missing one is only a warning),
obtain the homedir delete token (status must be again), run the LDAP phase,
flush, and finish the homedir deletion with the token. -/
def deleteUser (cfg : UsermgrdConfig) (env : DeleteUserEnv) (principal : String) :
    DeleteUserResult :=
  let user := localPart principal
  match env.nss user with
  | none => ⟨.notFound "user_not_found", []⟩
  | some res =>
    if cfg.minUid ≤ res.uid ∧ res.uid < cfg.maxUid then
      let afterKadm : Option (List ExtCall) :=
        match env.kadmGet with
        | .gone => some [.kadm]
        | .failed => none
        | .found => if env.kadmDeleteOk then some [.kadm, .kadm] else none
      match afterKadm with
      | none =>
        ⟨.serverError "kerberos_failed",
          match env.kadmGet with
          | .found => [.kadm, .kadm]
          | _ => [.kadm]⟩
      | some calls =>
        match env.homedirToken with
        | none => ⟨.serverError "mkhomedird_connect_token", calls ++ [.homedir]⟩
        | some (s, tok) =>
          if s ≠ "again" then ⟨.serverError "mkhomedird_token", calls ++ [.homedir]⟩
          else deleteUserLdapPhase env tok (calls ++ [.homedir])
    else ⟨.forbidden (some "unauthorized"), []⟩

/-! ## usermgrd.deleteGroup (DELETE /group/<delgroup>, remove-member) -/

/-- An LDAP person entry under LDAP_BASE_PEOPLE, with the attribute relevant
to the primary-group check. -/
structure LdapPerson where
  uid : String
  gidNumber : Nat
  deriving DecidableEq

/-- The numeric attributes a person entry carries: posixAccount defines
gidNumber; there is no attribute named gidHumber. -/
def personAttrNat (e : LdapPerson) (attr : String) : Option Nat :=
  if attr = "gidNumber" then some e.gidNumber else none

/-- conn.search (LDAP_BASE_PEOPLE, SUBTREE, (attr=v)): the entries whose
named attribute equals v. -/
def searchPeopleByAttr (people : List LdapPerson) (attr : String) (v : Nat) :
    List LdapPerson :=
  people.filter (fun e => personAttrNat e attr = some v)

/-- Injected collaborator outcomes of deleteGroup.  ldapGroupEntry is the
getLdapGroup result: none models a search not returning exactly one entry
(403 inconsistent); the inner option is the memberUid attribute, which a
memberless entry lacks (KeyError → 404 not_a_member). -/
structure DeleteGroupEnv where
  groups : String → Option GroupRec
  nss : String → Option PwEntry
  ldapPeople : List LdapPerson
  ldapGroupEntry : String → Option (Option (List String))
  gcGids : List Nat
  gcHomedirOk : Bool
  waitFlush : Nat → FlushOutcome
  waitGroups : Nat → Option GroupRec

/-- Everything observable about one deleteGroup request: the response and the
memberUid list written back (none if the modify was never reached). -/
structure DeleteGroupResult where
  resp : UResp
  newMembers : Option (List String)
  deriving DecidableEq

/-- The closing consistency loop of deleteGroup: either the group disappears
(KeyError) or the membership does. -/
def deleteGroupWait (flush : Nat → FlushOutcome) (view : Nat → Option GroupRec)
    (username : String) : Nat → Nat → WaitOutcome
  | 0, _ => .timeout
  | fuel + 1, i =>
    match flush i with
    | .flushFailed => .flushFailed
    | .connectFailed => .flushConnect
    | .ok =>
      match view i with
      | none => .ok
      | some g =>
        if username ∈ g.mem then deleteGroupWait flush view username fuel (i + 1)
        else .ok

/-- usermgrd.deleteGroup.  Ensure the group exists and is in the gid range,
ensure the authenticated user exists and is in the uid range, then search
LDAP_BASE_PEOPLE for (gidHumber=<gid>) — the literal attribute name the source
uses — refusing with 403 primary_group when the result is non-empty; remove
the user from memberUid (missing attribute or member → 404 not_a_member),
modify, garbage collect, and wait for the membership to vanish. -/
def deleteGroup (cfg : UsermgrdConfig) (env : DeleteGroupEnv) (delgroup : String)
    (principal : String) : DeleteGroupResult :=
  match env.groups delgroup with
  | none => ⟨.notFound "nonexistent", none⟩
  | some g =>
    if cfg.minGid ≤ g.gid ∧ g.gid < cfg.maxGid then
      match env.nss principal with
      | none => ⟨.notFound "user_not_found", none⟩
      | some u =>
        if cfg.minUid ≤ u.uid ∧ u.uid < cfg.maxUid then
          if (searchPeopleByAttr env.ldapPeople "gidHumber" g.gid).length > 0 then
            ⟨.forbidden (some "primary_group"), none⟩
          else
            match env.ldapGroupEntry g.name with
            | none => ⟨.forbidden (some "inconsistent"), none⟩
            | some none => ⟨.notFound "not_a_member", none⟩
            | some (some members) =>
              if u.name ∈ members then
                let remaining := members.erase u.name
                if env.gcGids ≠ [] ∧ env.gcHomedirOk = false then
                  ⟨.serverError "mkhomedir_group_delete", some remaining⟩
                else
                  match deleteGroupWait env.waitFlush env.waitGroups u.name 60 0 with
                  | .ok => ⟨.okJson, some remaining⟩
                  | .timeout => ⟨.serverError "resolve_timeout", some remaining⟩
                  | .flushFailed => ⟨.serverError "flush_failed", some remaining⟩
                  | _ => ⟨.serverError "nscdflushd_connect", some remaining⟩
              else ⟨.notFound "not_a_member", none⟩
        else ⟨.forbidden (some "unauthorized"), none⟩
    else ⟨.forbidden (some "unauthorized"), none⟩

/-! ## Theorems -/

theorem runStack_pushEvents_nil {α : Type} (cs : List (Bool × α)) (st : List α) :
    runStack (pushEvents cs) st = (false, (cs.map Prod.snd).reverse ++ st) := by
  have h := runStack_pushEvents cs [] st
  simpa [runStack] using h

/-- Claim C5: for every handler wrapped by the rollback scope, compensations
pushed in order run in reverse order when the handler raises, and none run
when it returns normally; in particular pushes 1, 2, 3 followed by a raise
execute [3, 2, 1]. -/
theorem claim_c5_rollback_lifo {α : Type} (cs : List (Bool × α)) (c₁ c₂ c₃ : α) :
    withRollback (pushEvents cs ++ [SEvent.fail]) = (cs.map Prod.snd).reverse ∧
    withRollback (pushEvents cs) = [] ∧
    withRollback (pushEvents [(true, c₁), (false, c₂), (true, c₃)] ++ [SEvent.fail]) =
      [c₃, c₂, c₁] := by
  refine ⟨?_, ?_, ?_⟩
  · have h := runStack_pushEvents cs [SEvent.fail] ([] : List α)
    simp [withRollback, h, runStack]
  · have h := runStack_pushEvents_nil cs ([] : List α)
    simp [withRollback, h]
  · have h := runStack_pushEvents [(true, c₁), (false, c₂), (true, c₃)]
      [SEvent.fail] ([] : List α)
    simp [withRollback, h, runStack]

/-- Claim C8: addPrincipal writes the password to stdin exactly twice (once
after each prompt) and its argv neither depends on the password nor contains
anything beyond the fixed kadmin words and the user, keytab, expire and
principal arguments; given the expected prompt dialogue it raises exactly when
the subprocess exits non-zero; getPrincipal raises KeyError exactly on
non-zero exit; deletePrincipal passes -force and raises exactly on non-zero
exit. -/
theorem claim_c8_kadm_driver (u k n e pw pw₂ : String) (proc : ProcOut)
    (out : String) (rc : Nat) :
    (addPrincipal u k n pw e proc).cmd = (addPrincipal u k n pw₂ e proc).cmd ∧
    (∀ a, a ∈ (addPrincipal u k n pw e proc).cmd →
      a ∈ ["kadmin", "-k", "-t", "-p", "add_principal", "+requires_preauth",
        "-allow_svr", "-expire"] ∨ a = u ∨ a = k ∨ a = e ∨ a = n) ∧
    (startsWithStr proc.read1 "Enter password for principal " = true →
      startsWithStr proc.read2 "\nRe-enter password for principal " = true →
      proc.read3 = "\n" →
      (addPrincipal u k n pw e proc).stdinWrites = [pw ++ "\n", pw ++ "\n"] ∧
        ((addPrincipal u k n pw e proc).outcome = .kadmException ↔ proc.exitCode ≠ 0)) ∧
    (getPrincipal out rc = .error () ↔ rc ≠ 0) ∧
    "-force" ∈ deletePrincipalCmd u k n ∧
    (deletePrincipalRaises rc = true ↔ rc ≠ 0) := by
  refine ⟨rfl, ?_, ?_, ?_, ?_, ?_⟩
  · intro a ha
    simp only [addPrincipal, addPrincipalCmd, commonArgs, List.cons_append,
      List.nil_append, List.mem_cons, List.mem_singleton, List.not_mem_nil,
      or_false] at ha
    simp only [List.mem_cons, List.mem_singleton, List.not_mem_nil, or_false]
    tauto
  · intro h1 h2 h3
    constructor
    · simp only [addPrincipal, addPrincipalDialogue, h1, h2, h3, if_true, ite_true]
      split <;> rfl
    · simp only [addPrincipal, addPrincipalDialogue, h1, h2, h3, if_true, ite_true]
      split <;> rename_i hrc <;> simp_all
  · constructor
    · intro h
      by_contra hrc
      simp [getPrincipal, hrc] at h
    · intro h
      simp [getPrincipal, h]
  · simp [deletePrincipalCmd, commonArgs]
  · simp [deletePrincipalRaises]

/-- Witness for claim C8 at a concrete subprocess run. -/
theorem claim_c8_kadm_driver_witness :
    (addPrincipal "adm" "kt" "bob" "pw" "never"
        ⟨"Enter password for principal bob", "\nRe-enter password for principal bob",
          "\n", 1⟩).stdinWrites = ["pw\n", "pw\n"] ∧
      ((addPrincipal "adm" "kt" "bob" "pw" "never"
        ⟨"Enter password for principal bob", "\nRe-enter password for principal bob",
          "\n", 1⟩).outcome = .kadmException ↔ (1 : Nat) ≠ 0) := by
  exact (claim_c8_kadm_driver "adm" "kt" "bob" "never" "pw" "pw" _ "x: y" 1).2.2.1
    (by decide) (by decide) (by decide)

theorem lookupToken_cons (a : String) (v : Nat × PwEntry)
    (st : List (String × Nat × PwEntry)) (t : String) :
    lookupToken ((a, v) :: st) t = if a = t then some v else lookupToken st t := rfl

/-- Claim C9: deleteHome without a token answers again with a fresh token
(404 user_not_found if the user does not resolve); with a token it answers
403 token_invalid on an unknown token or a user name differing from the one
the token was issued for, 403 token_expired after more than 60 seconds,
403 user_exists while the user still resolves, and otherwise removes the
configured directories and answers ok. -/
theorem claim_c9_delete_home_flow (cfg : HomeConfig) (env : HomeEnv)
    (st : List (String × Nat × PwEntry)) (user : String) :
    (env.nss user = none →
      deleteHome cfg env st user none = ⟨.userNotFound, st, [], []⟩ ∧
        homeRespCode .userNotFound = 404) ∧
    (∀ ud t, env.nss user = some ud → freshToken st env.tokenCandidates = some t →
      deleteHome cfg env st user none = ⟨.again t, (t, env.now, ud) :: st, [], []⟩ ∧
        lookupToken st t = none) ∧
    (∀ tok, lookupToken st tok = none →
      (deleteHome cfg env st user (some tok)).resp = .tokenInvalid ∧
        homeRespCode .tokenInvalid = 403) ∧
    (∀ tok d ud, lookupToken st tok = some (d, ud) → user ≠ ud.name →
      (deleteHome cfg env st user (some tok)).resp = .tokenInvalid) ∧
    (∀ tok d ud, lookupToken st tok = some (d, ud) → user = ud.name →
      env.now - d > 60 →
      (deleteHome cfg env st user (some tok)).resp = .tokenExpired ∧
        homeRespCode .tokenExpired = 403) ∧
    (∀ tok d ud r, lookupToken st tok = some (d, ud) → user = ud.name →
      env.now - d ≤ 60 → env.nss ud.name = some r →
      (deleteHome cfg env st user (some tok)).resp = .userExists ∧
        homeRespCode .userExists = 403) ∧
    (∀ tok d ud, lookupToken st tok = some (d, ud) → user = ud.name →
      env.now - d ≤ 60 → env.nss ud.name = none →
      (deleteHome cfg env st user (some tok)).resp = .okDeleted ∧
        (deleteHome cfg env st user (some tok)).removedDirs =
          cfg.directories.filterMap (fun p =>
            if p.2.del ∧ env.pathExists (formatDir p.1 ud) then some (formatDir p.1 ud)
            else none)) := by
  refine ⟨?_, ?_, ?_, ?_, ?_, ?_, ?_⟩
  · intro h
    simp [deleteHome, h, homeRespCode]
  · intro ud t hns hf
    refine ⟨by simp [deleteHome, hns, hf], ?_⟩
    have := List.find?_some hf
    simpa [Option.isNone_iff_eq_none] using this
  · intro tok h
    simp [deleteHome, h, homeRespCode]
  · intro tok d ud h hne
    simp [deleteHome, h, hne]
  · intro tok d ud h heq hgt
    simp [deleteHome, h, heq, hgt, homeRespCode]
  · intro tok d ud r h heq hle hns
    have hgt : ¬ env.now - d > 60 := by omega
    simp [deleteHome, h, heq, hgt, hns, homeRespCode]
  · intro tok d ud h heq hle hns
    have hgt : ¬ env.now - d > 60 := by omega
    simp [deleteHome, h, heq, hgt, hns]

/-- Witness for claim C9: a token 90 seconds old is refused as expired. -/
theorem claim_c9_delete_home_flow_witness :
    (deleteHome ⟨[]⟩ ⟨fun _ => none, 100, [], fun _ => false⟩
        [("tok1", 10, ⟨"alice", "/home/alice", 1000, 1000⟩)] "alice"
        (some "tok1")).resp = .tokenExpired ∧
      homeRespCode .tokenExpired = 403 :=
  (claim_c9_delete_home_flow ⟨[]⟩ ⟨fun _ => none, 100, [], fun _ => false⟩
      [("tok1", 10, ⟨"alice", "/home/alice", 1000, 1000⟩)] "alice").2.2.2.2.1
    "tok1" 10 ⟨"alice", "/home/alice", 1000, 1000⟩ (by decide) (by decide) (by decide)

/-- Claim C10: deleteHome never removes an entry from the deleteToken map —
the with-token branch leaves the map untouched, every recorded token survives
any request, and an unexpired token for the right user passes the token checks
on every repeated use. -/
theorem claim_c10_delete_token_accumulates (cfg : HomeConfig) (env : HomeEnv)
    (st : List (String × Nat × PwEntry)) (user : String) :
    (∀ tok, (deleteHome cfg env st user (some tok)).deleteToken = st) ∧
    (∀ tokOpt t v, lookupToken st t = some v →
      lookupToken (deleteHome cfg env st user tokOpt).deleteToken t = some v) ∧
    (∀ tok d ud, lookupToken st tok = some (d, ud) → user = ud.name →
      env.now - d ≤ 60 →
      (deleteHome cfg env st user (some tok)).resp ≠ .tokenInvalid ∧
        (deleteHome cfg env st user (some tok)).resp ≠ .tokenExpired) := by
  have hsome : ∀ tok, (deleteHome cfg env st user (some tok)).deleteToken = st := by
    intro tok
    simp only [deleteHome]
    cases h : lookupToken st tok with
    | none => rfl
    | some v =>
      cases v with
      | mk d ud =>
        by_cases hne : user ≠ ud.name
        · simp [hne]
        · by_cases hgt : env.now - d > 60
          · simp [hne, hgt]
          · cases hns : env.nss ud.name <;> simp [hne, hgt, hns]
  refine ⟨hsome, ?_, ?_⟩
  · intro tokOpt t v hv
    cases tokOpt with
    | some tok => rw [hsome tok]; exact hv
    | none =>
      simp only [deleteHome]
      cases hns : env.nss user with
      | none => exact hv
      | some ud =>
        cases hf : freshToken st env.tokenCandidates with
        | none => exact hv
        | some t₂ =>
          have hfresh : lookupToken st t₂ = none := by
            have := List.find?_some hf
            simpa [Option.isNone_iff_eq_none] using this
          have hne : t₂ ≠ t := by
            intro he
            rw [he, hv] at hfresh
            exact Option.noConfusion hfresh
          simp [lookupToken_cons, hne, hv]
  · intro tok d ud h heq hle
    have hgt : ¬ env.now - d > 60 := by omega
    cases hns : env.nss ud.name <;> simp [deleteHome, h, heq, hgt, hns]

/-- Witness for claim C10: the 90-second-old token map survives a tokened
request, and a 30-second-old token passes the checks. -/
theorem claim_c10_delete_token_accumulates_witness :
    lookupToken (deleteHome ⟨[]⟩ ⟨fun _ => none, 40, [], fun _ => false⟩
        [("tok1", 10, ⟨"alice", "/home/alice", 1000, 1000⟩)] "alice"
        (some "tok1")).deleteToken "tok1" =
      some (10, ⟨"alice", "/home/alice", 1000, 1000⟩) ∧
    (deleteHome ⟨[]⟩ ⟨fun _ => none, 40, [], fun _ => false⟩
        [("tok1", 10, ⟨"alice", "/home/alice", 1000, 1000⟩)] "alice"
        (some "tok1")).resp ≠ .tokenInvalid :=
  ⟨(claim_c10_delete_token_accumulates ⟨[]⟩ ⟨fun _ => none, 40, [], fun _ => false⟩
      [("tok1", 10, ⟨"alice", "/home/alice", 1000, 1000⟩)] "alice").2.1
    (some "tok1") "tok1" (10, ⟨"alice", "/home/alice", 1000, 1000⟩) (by decide),
  ((claim_c10_delete_token_accumulates ⟨[]⟩ ⟨fun _ => none, 40, [], fun _ => false⟩
      [("tok1", 10, ⟨"alice", "/home/alice", 1000, 1000⟩)] "alice").2.2
    "tok1" 10 ⟨"alice", "/home/alice", 1000, 1000⟩ (by decide) (by decide) (by decide)).1⟩

theorem waitIters_le_fuel (env : WaitEnv) : ∀ (fuel i : Nat), waitIters env fuel i ≤ fuel := by
  intro fuel
  induction fuel with
  | zero => intro i; simp [waitIters]
  | succ n ih =>
    intro i
    simp only [waitIters]
    split
    · omega
    · omega
    · split
      · omega
      · have := ih (i + 1)
        omega

theorem firstBothIdx_none_iff (env : WaitEnv) : ∀ (fuel i : Nat),
    firstBothIdx env fuel i = none ↔
      ∀ k, i ≤ k → k < i + fuel → (env.byName k = none ∨ env.byUid k = none) := by
  intro fuel
  induction fuel with
  | zero =>
    intro i
    simp only [firstBothIdx]
    constructor
    · intro _ k hk1 hk2; omega
    · intro _; trivial
  | succ n ih =>
    intro i
    simp only [firstBothIdx]
    by_cases hb : (env.byName i).isSome ∧ (env.byUid i).isSome
    · simp only [hb, if_true, ite_true]
      constructor
      · intro h; exact Option.noConfusion h
      · intro h
        rcases h i (le_refl i) (by omega) with hn | hn <;>
          rw [hn] at hb <;> simp at hb
    · simp only [hb, if_false, ite_false]
      rw [ih (i + 1)]
      constructor
      · intro h k hk1 hk2
        rcases Nat.eq_or_lt_of_le hk1 with he | hlt
        · subst he
          cases hxn : env.byName i with
          | none => exact Or.inl rfl
          | some a =>
            cases hxu : env.byUid i with
            | none => exact Or.inr rfl
            | some b => exact absurd ⟨by simp [hxn], by simp [hxu]⟩ hb
        · exact h k hlt (by omega)
      · intro h k hk1 hk2
        exact h k (by omega) (by omega)

theorem firstBothIdx_some (env : WaitEnv) : ∀ (fuel i k : Nat),
    firstBothIdx env fuel i = some k →
      i ≤ k ∧ k < i + fuel ∧ (env.byName k).isSome = true ∧ (env.byUid k).isSome = true ∧
        ∀ j, i ≤ j → j < k → (env.byName j = none ∨ env.byUid j = none) := by
  intro fuel
  induction fuel with
  | zero => intro i k h; exact Option.noConfusion h
  | succ n ih =>
    intro i k
    simp only [firstBothIdx]
    by_cases hb : (env.byName i).isSome ∧ (env.byUid i).isSome
    · simp only [hb, if_true, ite_true]
      intro h
      cases h
      exact ⟨le_refl i, by omega, hb.1, hb.2, fun j hj1 hj2 => by omega⟩
    · simp only [hb, if_false, ite_false]
      intro h
      obtain ⟨h1, h2, h3, h4, h5⟩ := ih (i + 1) k h
      refine ⟨by omega, by omega, h3, h4, ?_⟩
      intro j hj1 hj2
      rcases Nat.eq_or_lt_of_le hj1 with he | hlt
      · subst he
        cases hxn : env.byName i with
        | none => exact Or.inl rfl
        | some a =>
          cases hxu : env.byUid i with
          | none => exact Or.inr rfl
          | some b => exact absurd ⟨by simp [hxn], by simp [hxu]⟩ hb
      · exact h5 j hlt hj2

theorem firstBothIdx_eq_some (env : WaitEnv) : ∀ (fuel i k : Nat),
    i ≤ k → k < i + fuel →
    (env.byName k).isSome = true → (env.byUid k).isSome = true →
    (∀ j, i ≤ j → j < k → (env.byName j = none ∨ env.byUid j = none)) →
    firstBothIdx env fuel i = some k := by
  intro fuel
  induction fuel with
  | zero => intro i k h1 h2; omega
  | succ n ih =>
    intro i k h1 h2 h3 h4 h5
    simp only [firstBothIdx]
    rcases Nat.eq_or_lt_of_le h1 with he | hlt
    · subst he
      simp [h3, h4]
    · have hni : env.byName i = none ∨ env.byUid i = none :=
        h5 i (le_refl i) hlt
      have hb : ¬ ((env.byName i).isSome ∧ (env.byUid i).isSome) := by
        rcases hni with hn | hn <;> rw [hn] <;> simp
      simp only [hb, if_false, ite_false]
      exact ih (i + 1) k hlt (by omega) h3 h4 (fun j hj1 hj2 => h5 j (by omega) hj2)

theorem waitLoop_eq_firstBothIdx (env : WaitEnv) (hf : ∀ j, env.flush j = .ok) :
    ∀ (fuel i : Nat),
    waitLoop env fuel i =
      match firstBothIdx env fuel i with
      | none => .timeout
      | some k =>
        match env.byName k, env.byUid k with
        | some a, some b => if a ≠ b then .mismatch else .ok
        | _, _ => .timeout := by
  intro fuel
  induction fuel with
  | zero => intro i; rfl
  | succ n ih =>
    intro i
    simp only [waitLoop, firstBothIdx, hf i]
    cases hn : env.byName i <;> cases hu : env.byUid i <;>
      simp only [hn, hu, Option.isSome_none, Option.isSome_some, false_and, and_false,
        true_and, and_true, if_false, if_true, ite_true, ite_false, Bool.false_eq_true] <;>
      try exact ih (i + 1)

/-- Claim C2: after the LDAP writes the consistency wait runs at most 60
iterations, flushing before resolving in each; if the first iteration in
which both resolutions succeed sees differing records the handler fails 500
user_mismatch, if no iteration sees both succeed it fails 500
user_add_failed, and if they succeed and agree the handler proceeds past the
wait. -/
theorem claim_c2_consistency_wait (cfg : UsermgrdConfig) (env : AddUserEnv)
    (st : ClusterState) (reserved : List (Option Nat)) (uid : Nat)
    (hf : ∀ j, env.flush j = .ok)
    (hauth : localPart env.authUser = cfg.authorizationCreate)
    (hchosen : findUnusedUser env.nssUidTaken reserved env.candidates = some uid)
    (huid : uid ≠ 0)
    (hp : "user-" ++ uintToQuint uid 2 ∉ st.people)
    (hg : "user-" ++ uintToQuint uid 2 ∉ st.groups) :
    waitIters ⟨env.flush, env.byName, env.byUid⟩ 60 0 ≤ 60 ∧
    ((∃ k, k < 60 ∧ (∃ a b, env.byName k = some a ∧ env.byUid k = some b ∧ a ≠ b) ∧
        ∀ j, j < k → (env.byName j = none ∨ env.byUid j = none)) →
      (addUser cfg env st reserved).resp = .serverError "user_mismatch" ∧
        uRespCode (addUser cfg env st reserved).resp = 500) ∧
    ((∀ k, k < 60 → (env.byName k = none ∨ env.byUid k = none)) →
      (addUser cfg env st reserved).resp = .serverError "user_add_failed" ∧
        uRespCode (addUser cfg env st reserved).resp = 500) ∧
    ((∃ k, k < 60 ∧ (∃ a, env.byName k = some a ∧ env.byUid k = some a) ∧
        ∀ j, j < k → (env.byName j = none ∨ env.byUid j = none)) →
      isCreated (addUser cfg env st reserved).resp = true ∨
        (addUser cfg env st reserved).resp = .serverError "kerberos_failed" ∨
        (addUser cfg env st reserved).resp = .serverError "mkhomedird_connect" ∨
        (addUser cfg env st reserved).resp = .serverError "mkhomedir_failed") := by
  have hwenv : ∀ j, (WaitEnv.mk env.flush env.byName env.byUid).flush j = .ok := hf
  refine ⟨waitIters_le_fuel _ 60 0, ?_, ?_, ?_⟩
  · rintro ⟨k, hk, ⟨a, b, ha, hb, hab⟩, hmin⟩
    have hfi : firstBothIdx ⟨env.flush, env.byName, env.byUid⟩ 60 0 = some k :=
      firstBothIdx_eq_some _ 60 0 k (Nat.zero_le k) (by omega)
        (by simp [ha]) (by simp [hb]) (fun j _ hj2 => hmin j hj2)
    have hwait : consistencyWait ⟨env.flush, env.byName, env.byUid⟩ = .mismatch := by
      rw [consistencyWait, waitLoop_eq_firstBothIdx _ hwenv 60 0, hfi]
      simp [ha, hb, hab]
    simp [addUser, hauth, hchosen, huid, hp, hg, hwait, uRespCode]
  · intro hnone
    have hfi : firstBothIdx ⟨env.flush, env.byName, env.byUid⟩ 60 0 = none := by
      rw [firstBothIdx_none_iff]
      intro k _ hk2
      exact hnone k (by omega)
    have hwait : consistencyWait ⟨env.flush, env.byName, env.byUid⟩ = .timeout := by
      rw [consistencyWait, waitLoop_eq_firstBothIdx _ hwenv 60 0, hfi]
    simp [addUser, hauth, hchosen, huid, hp, hg, hwait, uRespCode]
  · rintro ⟨k, hk, ⟨a, ha, hb⟩, hmin⟩
    have hfi : firstBothIdx ⟨env.flush, env.byName, env.byUid⟩ 60 0 = some k :=
      firstBothIdx_eq_some _ 60 0 k (Nat.zero_le k) (by omega)
        (by simp [ha]) (by simp [hb]) (fun j _ hj2 => hmin j hj2)
    have hwait : consistencyWait ⟨env.flush, env.byName, env.byUid⟩ = .ok := by
      rw [consistencyWait, waitLoop_eq_firstBothIdx _ hwenv 60 0, hfi]
      simp [ha, hb]
    cases hkadm : env.kadmOk with
    | false =>
      refine Or.inr (Or.inl ?_)
      simp [addUser, hauth, hchosen, huid, hp, hg, hwait, hkadm]
    | true =>
      cases hh : env.homedirResp with
      | none =>
        refine Or.inr (Or.inr (Or.inl ?_))
        simp [addUser, hauth, hchosen, huid, hp, hg, hwait, hkadm, hh]
      | some s =>
        by_cases hs : s = "ok"
        · refine Or.inl ?_
          simp [addUser, hauth, hchosen, huid, hp, hg, hwait, hkadm, hh, hs, isCreated]
        · refine Or.inr (Or.inr (Or.inr ?_))
          simp [addUser, hauth, hchosen, huid, hp, hg, hwait, hkadm, hh, hs]

/-- Witness for claim C2: a run whose first iteration resolves to two
different records fails with 500 user_mismatch. -/
theorem claim_c2_consistency_wait_witness :
    (addUser ⟨1000, 2000, 1000, 2000, "admin"⟩
        ⟨"admin", [1234], fun _ => false, fun _ => .ok,
          fun _ => some ⟨"a", "h", 1, 1⟩, fun _ => some ⟨"b", "h", 2, 2⟩,
          true, some "ok", "pw"⟩ ⟨[], [], [], []⟩ []).resp =
      .serverError "user_mismatch" ∧
    uRespCode (addUser ⟨1000, 2000, 1000, 2000, "admin"⟩
        ⟨"admin", [1234], fun _ => false, fun _ => .ok,
          fun _ => some ⟨"a", "h", 1, 1⟩, fun _ => some ⟨"b", "h", 2, 2⟩,
          true, some "ok", "pw"⟩ ⟨[], [], [], []⟩ []).resp = 500 :=
  (claim_c2_consistency_wait ⟨1000, 2000, 1000, 2000, "admin"⟩
      ⟨"admin", [1234], fun _ => false, fun _ => .ok,
        fun _ => some ⟨"a", "h", 1, 1⟩, fun _ => some ⟨"b", "h", 2, 2⟩,
        true, some "ok", "pw"⟩ ⟨[], [], [], []⟩ [] 1234
      (fun _ => rfl) (by decide) (by decide) (by decide) (by decide) (by decide)).2.1
    ⟨0, by decide, ⟨⟨"a", "h", 1, 1⟩, ⟨"b", "h", 2, 2⟩, rfl, rfl, by decide⟩,
      fun j hj => absurd hj (Nat.not_lt_zero j)⟩

theorem findUnusedUser_spec (resolves : Nat → Bool) (reserved : List (Option Nat)) :
    ∀ (cands : List Nat) (u : Nat), findUnusedUser resolves reserved cands = some u →
      resolves u = false ∧ some u ∉ reserved ∧ u ∈ cands := by
  intro cands
  induction cands with
  | nil => intro u h; exact Option.noConfusion h
  | cons c rest ih =>
    intro u
    simp only [findUnusedUser]
    by_cases hm : (some c : Option Nat) ∈ reserved
    · simp only [hm, if_true, ite_true]
      intro h
      obtain ⟨h1, h2, h3⟩ := ih u h
      exact ⟨h1, h2, List.mem_cons_of_mem c h3⟩
    · simp only [hm, if_false, ite_false]
      cases hr : resolves c with
      | true =>
        simp only [if_true, ite_true]
        intro h
        obtain ⟨h1, h2, h3⟩ := ih u h
        exact ⟨h1, h2, List.mem_cons_of_mem c h3⟩
      | false =>
        simp only [Bool.false_eq_true, if_false, ite_false]
        intro h
        cases h
        exact ⟨hr, hm, List.mem_cons_self c rest⟩

theorem findUnusedGroup_spec (resolvesName : String → Bool) (resolvesGid : Nat → Bool)
    (reserved : List (Option (String ⊕ Nat))) :
    ∀ (cands : List (String ⊕ Nat)) (g : String ⊕ Nat),
      findUnusedGroup resolvesName resolvesGid reserved cands = some g →
      groupResolves resolvesName resolvesGid g = false ∧
        reserved.any (fun y => y = some g) = false ∧ g ∈ cands := by
  intro cands
  induction cands with
  | nil => intro g h; exact Option.noConfusion h
  | cons c rest ih =>
    intro g
    simp only [findUnusedGroup]
    cases hm : reserved.any (fun y => y = some c) with
    | true =>
      simp only [if_true, ite_true]
      intro h
      obtain ⟨h0, h1, h2⟩ := ih g h
      exact ⟨h0, h1, List.mem_cons_of_mem c h2⟩
    | false =>
      simp only [Bool.false_eq_true, if_false, ite_false]
      cases c with
      | inl s =>
        cases hr : resolvesName s with
        | true =>
          simp only [hr, if_true, ite_true]
          intro h
          obtain ⟨h0, h1, h2⟩ := ih g h
          exact ⟨h0, h1, List.mem_cons_of_mem _ h2⟩
        | false =>
          simp only [hr, Bool.false_eq_true, if_false, ite_false]
          intro h
          cases h
          exact ⟨hr, hm, List.mem_cons_self _ rest⟩
      | inr n =>
        cases hr : resolvesGid n with
        | true =>
          simp only [hr, if_true, ite_true]
          intro h
          obtain ⟨h0, h1, h2⟩ := ih g h
          exact ⟨h0, h1, List.mem_cons_of_mem _ h2⟩
        | false =>
          simp only [hr, Bool.false_eq_true, if_false, ite_false]
          intro h
          cases h
          exact ⟨hr, hm, List.mem_cons_self _ rest⟩

theorem any_setAddGroup (x : Option (String ⊕ Nat))
    (s : List (Option (String ⊕ Nat))) :
    (setAddGroup x s).any (fun y => y = x) = true := by
  unfold setAddGroup
  split
  · assumption
  · simp

theorem mem_setAdd (x y : Option Nat) (s : List (Option Nat)) :
    y ∈ setAdd x s ↔ y ∈ s ∨ y = x := by
  unfold setAdd
  by_cases hm : x ∈ s
  · simp only [hm, if_true, ite_true]
    constructor
    · exact Or.inl
    · rintro (h | h)
      · exact h
      · exact h ▸ hm
  · simp only [hm, if_false, ite_false, List.mem_cons]
    tauto

theorem mem_setRemove (x y : Option Nat) (s : List (Option Nat)) :
    y ∈ setRemove x s ↔ y ∈ s ∧ y ≠ x := by
  unfold setRemove
  simp [List.mem_filter]

/-- Counterexample to claim C7 as stated: in a successful create-user run the
uid reservation is already gone while the handler is still executing its
Kerberos step — the reservation set snapshot there is empty, although the
handler has not yet returned — so the entry is not removed at handler exit
but earlier, at the allocator scope exit. -/
theorem claim_c7_reservation_counterexample :
    isCreated (addUser ⟨1000, 2000, 1000, 2000, "admin"⟩
        ⟨"admin", [1234], fun _ => false, fun _ => .ok,
          fun _ => some ⟨"a", "h", 1234, 1234⟩, fun _ => some ⟨"a", "h", 1234, 1234⟩,
          true, some "ok", "pw"⟩ ⟨[], [], [], []⟩ []).resp = true ∧
    (addUser ⟨1000, 2000, 1000, 2000, "admin"⟩
        ⟨"admin", [1234], fun _ => false, fun _ => .ok,
          fun _ => some ⟨"a", "h", 1234, 1234⟩, fun _ => some ⟨"a", "h", 1234, 1234⟩,
          true, some "ok", "pw"⟩ ⟨[], [], [], []⟩ []).reservedAtKerberos =
      some [] := by
  decide

/-- Claim C7 (amended): an identifier yielded by findUnusedUser or
findUnusedGroup is neither resolvable (getpwnam/getpwuid respectively
getgrnam/getgrgid) nor reserved when chosen; it is reserved for the duration
of the allocator scope, so a second allocation of either kind whose scope
overlaps the first never yields the same identifier; and the reservation is
removed again at allocator-scope exit (in addUser before the consistency
wait), on success as well as on failure, leaving the reservation set restored
when the handler finishes. -/
theorem claim_c7_allocator_reservations (resolves resolves₂ : Nat → Bool)
    (resolvesName resolvesName₂ : String → Bool)
    (resolvesGid resolvesGid₂ : Nat → Bool)
    (reserved : List (Option Nat)) (reservedG : List (Option (String ⊕ Nat)))
    (cands cands₂ : List Nat) (candsG candsG₂ : List (String ⊕ Nat))
    (cfg : UsermgrdConfig) (env : AddUserEnv) (st : ClusterState) :
    (∀ u, findUnusedUser resolves reserved cands = some u →
      resolves u = false ∧ some u ∉ reserved ∧ u ∈ cands) ∧
    (∀ u u₂, findUnusedUser resolves reserved cands = some u →
      findUnusedUser resolves₂ (setAdd (some u) reserved) cands₂ = some u₂ →
      u₂ ≠ u) ∧
    (∀ g, findUnusedGroup resolvesName resolvesGid reservedG candsG = some g →
      groupResolves resolvesName resolvesGid g = false ∧
        reservedG.any (fun y => y = some g) = false ∧ g ∈ candsG) ∧
    (∀ g g₂, findUnusedGroup resolvesName resolvesGid reservedG candsG = some g →
      findUnusedGroup resolvesName₂ resolvesGid₂ (setAddGroup (some g) reservedG)
        candsG₂ = some g₂ →
      g₂ ≠ g) ∧
    ((addUser cfg env st reserved).reservedFinal =
      setRemove (findUnusedUser env.nssUidTaken reserved env.candidates)
        (setAdd (findUnusedUser env.nssUidTaken reserved env.candidates) reserved) ∨
      (addUser cfg env st reserved).reservedFinal = reserved) ∧
    (∀ x, x ∈ setRemove (findUnusedUser env.nssUidTaken reserved env.candidates)
        (setAdd (findUnusedUser env.nssUidTaken reserved env.candidates) reserved) ↔
      x ∈ reserved ∧ x ≠ findUnusedUser env.nssUidTaken reserved env.candidates) ∧
    (∀ l, (addUser cfg env st reserved).reservedAtKerberos = some l →
      findUnusedUser env.nssUidTaken reserved env.candidates ∉ l) := by
  refine ⟨fun u => findUnusedUser_spec resolves reserved cands u, ?_, ?_, ?_, ?_, ?_, ?_⟩
  · intro u u₂ h1 h2
    obtain ⟨_, hnm, _⟩ := findUnusedUser_spec resolves₂ (setAdd (some u) reserved) cands₂ u₂ h2
    intro he
    apply hnm
    rw [he, mem_setAdd]
    exact Or.inr rfl
  · exact fun g => findUnusedGroup_spec resolvesName resolvesGid reservedG candsG g
  · intro g g₂ h1 h2
    obtain ⟨_, hnm, _⟩ := findUnusedGroup_spec resolvesName₂ resolvesGid₂
      (setAddGroup (some g) reservedG) candsG₂ g₂ h2
    intro he
    subst he
    rw [any_setAddGroup] at hnm
    exact Bool.noConfusion hnm
  · by_cases hauth : localPart env.authUser ≠ cfg.authorizationCreate
    · right
      simp [addUser, hauth]
    · left
      cases hch : findUnusedUser env.nssUidTaken reserved env.candidates with
      | none => simp [addUser, hauth, hch]
      | some uid =>
        by_cases h0 : uid = 0
        · simp [addUser, hauth, hch, h0]
        · by_cases hpm : ("user-" ++ uintToQuint uid 2) ∈ st.people
          · simp [addUser, hauth, hch, h0, hpm]
          · by_cases hgm : ("user-" ++ uintToQuint uid 2) ∈ st.groups
            · simp [addUser, hauth, hch, h0, hpm, hgm]
            · cases hw : consistencyWait ⟨env.flush, env.byName, env.byUid⟩ with
              | ok =>
                cases hkadm : env.kadmOk with
                | false => simp [addUser, hauth, hch, h0, hpm, hgm, hw, hkadm]
                | true =>
                  cases hh : env.homedirResp with
                  | none => simp [addUser, hauth, hch, h0, hpm, hgm, hw, hkadm, hh]
                  | some s =>
                    by_cases hs : s = "ok" <;>
                      simp [addUser, hauth, hch, h0, hpm, hgm, hw, hkadm, hh, hs]
              | mismatch => simp [addUser, hauth, hch, h0, hpm, hgm, hw]
              | timeout => simp [addUser, hauth, hch, h0, hpm, hgm, hw]
              | flushFailed => simp [addUser, hauth, hch, h0, hpm, hgm, hw]
              | flushConnect => simp [addUser, hauth, hch, h0, hpm, hgm, hw]
  · intro x
    rw [mem_setRemove, mem_setAdd]
    tauto
  · intro l hl
    by_cases hauth : localPart env.authUser ≠ cfg.authorizationCreate
    · simp [addUser, hauth] at hl
    · cases hch : findUnusedUser env.nssUidTaken reserved env.candidates with
      | none => simp [addUser, hauth, hch] at hl
      | some uid =>
        by_cases h0 : uid = 0
        · simp [addUser, hauth, hch, h0] at hl
        · by_cases hpm : ("user-" ++ uintToQuint uid 2) ∈ st.people
          · simp [addUser, hauth, hch, h0, hpm] at hl
          · by_cases hgm : ("user-" ++ uintToQuint uid 2) ∈ st.groups
            · simp [addUser, hauth, hch, h0, hpm, hgm] at hl
            · cases hw : consistencyWait ⟨env.flush, env.byName, env.byUid⟩ with
              | ok =>
                cases hkadm : env.kadmOk with
                | false =>
                  simp [addUser, hauth, hch, h0, hpm, hgm, hw, hkadm] at hl
                  subst hl
                  try rw [hch]
                  rw [mem_setRemove]
                  intro hmem
                  exact hmem.2 rfl
                | true =>
                  cases hh : env.homedirResp with
                  | none =>
                    simp [addUser, hauth, hch, h0, hpm, hgm, hw, hkadm, hh] at hl
                    subst hl
                    try rw [hch]
                    rw [mem_setRemove]
                    intro hmem
                    exact hmem.2 rfl
                  | some str =>
                    by_cases hs : str = "ok"
                    · simp [addUser, hauth, hch, h0, hpm, hgm, hw, hkadm, hh, hs] at hl
                      subst hl
                      try rw [hch]
                      rw [mem_setRemove]
                      intro hmem
                      exact hmem.2 rfl
                    · simp [addUser, hauth, hch, h0, hpm, hgm, hw, hkadm, hh, hs] at hl
                      subst hl
                      try rw [hch]
                      rw [mem_setRemove]
                      intro hmem
                      exact hmem.2 rfl
              | mismatch => simp [addUser, hauth, hch, h0, hpm, hgm, hw] at hl
              | timeout => simp [addUser, hauth, hch, h0, hpm, hgm, hw] at hl
              | flushFailed => simp [addUser, hauth, hch, h0, hpm, hgm, hw] at hl
              | flushConnect => simp [addUser, hauth, hch, h0, hpm, hgm, hw] at hl

/-- Witness for claim C7 at concrete allocator runs of both kinds. -/
theorem claim_c7_allocator_reservations_witness :
    ((fun _ => false : Nat → Bool) 7 = false ∧ some 7 ∉ ([] : List (Option Nat)) ∧
      7 ∈ [7]) ∧
    (8 : Nat) ≠ 7 ∧
    (groupResolves (fun _ => false) (fun _ => false) (Sum.inr 5) = false ∧
      (([] : List (Option (String ⊕ Nat))).any
        (fun y => y = some (Sum.inr 5)) = false) ∧
      (Sum.inr 5 : String ⊕ Nat) ∈ [Sum.inr 5]) ∧
    (Sum.inr 6 : String ⊕ Nat) ≠ Sum.inr 5 :=
  ⟨(claim_c7_allocator_reservations (fun _ => false) (fun _ => false)
      (fun _ => false) (fun _ => false) (fun _ => false) (fun _ => false) [] []
      [7] [8] [Sum.inr 5] [Sum.inr 6] ⟨1000, 2000, 1000, 2000, "admin"⟩
      ⟨"admin", [7], fun _ => false, fun _ => .ok, fun _ => none, fun _ => none,
        true, some "ok", "pw"⟩ ⟨[], [], [], []⟩).1 7 (by decide),
   (claim_c7_allocator_reservations (fun _ => false) (fun _ => false)
      (fun _ => false) (fun _ => false) (fun _ => false) (fun _ => false) [] []
      [7] [8] [Sum.inr 5] [Sum.inr 6] ⟨1000, 2000, 1000, 2000, "admin"⟩
      ⟨"admin", [7], fun _ => false, fun _ => .ok, fun _ => none, fun _ => none,
        true, some "ok", "pw"⟩ ⟨[], [], [], []⟩).2.1 7 8 (by decide) (by decide),
   (claim_c7_allocator_reservations (fun _ => false) (fun _ => false)
      (fun _ => false) (fun _ => false) (fun _ => false) (fun _ => false) [] []
      [7] [8] [Sum.inr 5] [Sum.inr 6] ⟨1000, 2000, 1000, 2000, "admin"⟩
      ⟨"admin", [7], fun _ => false, fun _ => .ok, fun _ => none, fun _ => none,
        true, some "ok", "pw"⟩ ⟨[], [], [], []⟩).2.2.1 (Sum.inr 5) (by decide),
   (claim_c7_allocator_reservations (fun _ => false) (fun _ => false)
      (fun _ => false) (fun _ => false) (fun _ => false) (fun _ => false) [] []
      [7] [8] [Sum.inr 5] [Sum.inr 6] ⟨1000, 2000, 1000, 2000, "admin"⟩
      ⟨"admin", [7], fun _ => false, fun _ => .ok, fun _ => none, fun _ => none,
        true, some "ok", "pw"⟩ ⟨[], [], [], []⟩).2.2.2.1 (Sum.inr 5) (Sum.inr 6)
      (by decide) (by decide)⟩

/-- Claim C1: whenever addUser fails, the compensations registered by the
committed steps have run by the time the error is returned, so no LDAP person
entry, LDAP group entry or Kerberos principal that was absent before the
request remains afterwards; on a successful run no compensation executes. -/
theorem claim_c1_create_rollback (cfg : UsermgrdConfig) (env : AddUserEnv)
    (st : ClusterState) (reserved : List (Option Nat)) (n : String)
    (hp : n ∉ st.people) (hg : n ∉ st.groups) (hk : n ∉ st.principals) :
    (isCreated (addUser cfg env st reserved).resp = false →
      n ∉ (addUser cfg env st reserved).state.people ∧
        n ∉ (addUser cfg env st reserved).state.groups ∧
        n ∉ (addUser cfg env st reserved).state.principals) ∧
    (isCreated (addUser cfg env st reserved).resp = true →
      (addUser cfg env st reserved).rollbackRan = []) := by
  by_cases hauth : localPart env.authUser ≠ cfg.authorizationCreate
  · exact ⟨fun _ => by simp [addUser, hauth, hp, hg, hk],
      fun hcr => by simp [addUser, hauth, isCreated] at hcr⟩
  · cases hch : findUnusedUser env.nssUidTaken reserved env.candidates with
    | none =>
      exact ⟨fun _ => by simp [addUser, hauth, hch, hp, hg, hk],
        fun hcr => by simp [addUser, hauth, hch, isCreated] at hcr⟩
    | some uid =>
      by_cases h0 : uid = 0
      · exact ⟨fun _ => by simp [addUser, hauth, hch, h0, hp, hg, hk],
          fun hcr => by simp [addUser, hauth, hch, h0, isCreated] at hcr⟩
      · by_cases hpm : ("user-" ++ uintToQuint uid 2) ∈ st.people
        · exact ⟨fun _ => by simp [addUser, hauth, hch, h0, hpm, hp, hg, hk],
            fun hcr => by simp [addUser, hauth, hch, h0, hpm, isCreated] at hcr⟩
        · by_cases hgm : ("user-" ++ uintToQuint uid 2) ∈ st.groups
          · exact ⟨fun _ => by
              simp [addUser, hauth, hch, h0, hpm, hgm, runRollback, applyComp,
                List.mem_filter, hp, hg, hk],
              fun hcr => by simp [addUser, hauth, hch, h0, hpm, hgm, isCreated] at hcr⟩
          · cases hw : consistencyWait ⟨env.flush, env.byName, env.byUid⟩ with
            | mismatch =>
              exact ⟨fun _ => by
                simp [addUser, hauth, hch, h0, hpm, hgm, hw, runRollback, applyComp,
                  List.mem_filter, hp, hg, hk],
                fun hcr => by
                  simp [addUser, hauth, hch, h0, hpm, hgm, hw, isCreated] at hcr⟩
            | timeout =>
              exact ⟨fun _ => by
                simp [addUser, hauth, hch, h0, hpm, hgm, hw, runRollback, applyComp,
                  List.mem_filter, hp, hg, hk],
                fun hcr => by
                  simp [addUser, hauth, hch, h0, hpm, hgm, hw, isCreated] at hcr⟩
            | flushFailed =>
              exact ⟨fun _ => by
                simp [addUser, hauth, hch, h0, hpm, hgm, hw, runRollback, applyComp,
                  List.mem_filter, hp, hg, hk],
                fun hcr => by
                  simp [addUser, hauth, hch, h0, hpm, hgm, hw, isCreated] at hcr⟩
            | flushConnect =>
              exact ⟨fun _ => by
                simp [addUser, hauth, hch, h0, hpm, hgm, hw, runRollback, applyComp,
                  List.mem_filter, hp, hg, hk],
                fun hcr => by
                  simp [addUser, hauth, hch, h0, hpm, hgm, hw, isCreated] at hcr⟩
            | ok =>
              cases hkadm : env.kadmOk with
              | false =>
                exact ⟨fun _ => by
                  simp [addUser, hauth, hch, h0, hpm, hgm, hw, hkadm, runRollback,
                    applyComp, List.mem_filter, hp, hg, hk],
                  fun hcr => by
                    simp [addUser, hauth, hch, h0, hpm, hgm, hw, hkadm,
                      isCreated] at hcr⟩
              | true =>
                cases hh : env.homedirResp with
                | none =>
                  exact ⟨fun _ => by
                    simp [addUser, hauth, hch, h0, hpm, hgm, hw, hkadm, hh,
                      runRollback, applyComp, List.mem_filter, hp, hg, hk],
                    fun hcr => by
                      simp [addUser, hauth, hch, h0, hpm, hgm, hw, hkadm, hh,
                        isCreated] at hcr⟩
                | some str =>
                  by_cases hs : str = "ok"
                  · exact ⟨fun hf => by
                      simp [addUser, hauth, hch, h0, hpm, hgm, hw, hkadm, hh, hs,
                        isCreated] at hf,
                      fun _ => by
                        simp [addUser, hauth, hch, h0, hpm, hgm, hw, hkadm, hh, hs]⟩
                  · exact ⟨fun _ => by
                      simp [addUser, hauth, hch, h0, hpm, hgm, hw, hkadm, hh, hs,
                        runRollback, applyComp, List.mem_filter, hp, hg, hk],
                      fun hcr => by
                        simp [addUser, hauth, hch, h0, hpm, hgm, hw, hkadm, hh, hs,
                          isCreated] at hcr⟩

/-- Witness for claim C1: a run whose Kerberos step fails leaves no trace of
the half-created account, and a fully successful run executes nothing from
the rollback stack. -/
theorem claim_c1_create_rollback_witness :
    ("user-" ++ uintToQuint 1234 2) ∉
      (addUser ⟨1000, 2000, 1000, 2000, "admin"⟩
        ⟨"admin", [1234], fun _ => false, fun _ => .ok,
          fun _ => some ⟨"a", "h", 1234, 1234⟩, fun _ => some ⟨"a", "h", 1234, 1234⟩,
          false, some "ok", "pw"⟩ ⟨[], [], [], []⟩ []).state.people ∧
    ("user-" ++ uintToQuint 1234 2) ∉
      (addUser ⟨1000, 2000, 1000, 2000, "admin"⟩
        ⟨"admin", [1234], fun _ => false, fun _ => .ok,
          fun _ => some ⟨"a", "h", 1234, 1234⟩, fun _ => some ⟨"a", "h", 1234, 1234⟩,
          false, some "ok", "pw"⟩ ⟨[], [], [], []⟩ []).state.groups ∧
    ("user-" ++ uintToQuint 1234 2) ∉
      (addUser ⟨1000, 2000, 1000, 2000, "admin"⟩
        ⟨"admin", [1234], fun _ => false, fun _ => .ok,
          fun _ => some ⟨"a", "h", 1234, 1234⟩, fun _ => some ⟨"a", "h", 1234, 1234⟩,
          false, some "ok", "pw"⟩ ⟨[], [], [], []⟩ []).state.principals :=
  (claim_c1_create_rollback ⟨1000, 2000, 1000, 2000, "admin"⟩
      ⟨"admin", [1234], fun _ => false, fun _ => .ok,
        fun _ => some ⟨"a", "h", 1234, 1234⟩, fun _ => some ⟨"a", "h", 1234, 1234⟩,
        false, some "ok", "pw"⟩ ⟨[], [], [], []⟩ [] ("user-" ++ uintToQuint 1234 2)
      (by decide) (by decide) (by decide)).1 (by decide)

/-- Counterexample to the login-name clause of claim C3: a successful
create-user run returns the login name user-<quint(uid)>, which contains
hyphens and therefore does not match [a-z][a-z0-9]\x7b2,15\x7d. -/
theorem claim_c3_username_regex_counterexample :
    (addUser ⟨1000, 2000, 1000, 2000, "admin"⟩
        ⟨"admin", [1234], fun _ => false, fun _ => .ok,
          fun _ => some ⟨"a", "h", 1234, 1234⟩, fun _ => some ⟨"a", "h", 1234, 1234⟩,
          true, some "ok", "pw"⟩ ⟨[], [], [], []⟩ []).resp =
      .created ("user-" ++ uintToQuint 1234 2) "pw" 1234 1234 ∧
    specUsernamePattern ("user-" ++ uintToQuint 1234 2) = false := by
  decide

/-- Claim C3 (amended): every successful create-user run returns 201 with a
body carrying status, user, password, uid and gid, where uid equals gid,
MIN_UID ≤ uid < MAX_UID, and the login name is user-<quint(uid)> — a string
over lowercase letters and hyphens — rather than a match of
[a-z][a-z0-9]\x7b2,15\x7d. -/
theorem claim_c3_created_account (cfg : UsermgrdConfig) (env : AddUserEnv)
    (st : ClusterState) (reserved : List (Option Nat))
    (hcand : ∀ c ∈ env.candidates, cfg.minUid ≤ c ∧ c < cfg.maxUid) :
    ∀ u p uid gid, (addUser cfg env st reserved).resp = .created u p uid gid →
      uid = gid ∧ cfg.minUid ≤ uid ∧ uid < cfg.maxUid ∧
        u = "user-" ++ uintToQuint uid 2 ∧
        uRespCode (addUser cfg env st reserved).resp = 201 := by
  intro u p uid gid h
  by_cases hauth : localPart env.authUser ≠ cfg.authorizationCreate
  · simp [addUser, hauth] at h
  · cases hch : findUnusedUser env.nssUidTaken reserved env.candidates with
    | none => simp [addUser, hauth, hch] at h
    | some uid₀ =>
      by_cases h0 : uid₀ = 0
      · simp [addUser, hauth, hch, h0] at h
      · by_cases hpm : ("user-" ++ uintToQuint uid₀ 2) ∈ st.people
        · simp [addUser, hauth, hch, h0, hpm] at h
        · by_cases hgm : ("user-" ++ uintToQuint uid₀ 2) ∈ st.groups
          · simp [addUser, hauth, hch, h0, hpm, hgm] at h
          · cases hw : consistencyWait ⟨env.flush, env.byName, env.byUid⟩ with
            | mismatch => simp [addUser, hauth, hch, h0, hpm, hgm, hw] at h
            | timeout => simp [addUser, hauth, hch, h0, hpm, hgm, hw] at h
            | flushFailed => simp [addUser, hauth, hch, h0, hpm, hgm, hw] at h
            | flushConnect => simp [addUser, hauth, hch, h0, hpm, hgm, hw] at h
            | ok =>
              cases hkadm : env.kadmOk with
              | false => simp [addUser, hauth, hch, h0, hpm, hgm, hw, hkadm] at h
              | true =>
                cases hh : env.homedirResp with
                | none =>
                  simp [addUser, hauth, hch, h0, hpm, hgm, hw, hkadm, hh] at h
                | some str =>
                  by_cases hs : str = "ok"
                  · have hmem := (findUnusedUser_spec env.nssUidTaken reserved
                      env.candidates uid₀ hch).2.2
                    have hrange := hcand uid₀ hmem
                    simp [addUser, hauth, hch, h0, hpm, hgm, hw, hkadm, hh, hs,
                      UResp.created.injEq] at h
                    obtain ⟨hu, hpw, huid, hgid⟩ := h
                    subst huid
                    refine ⟨hgid, hrange.1, hrange.2, hu.symm, ?_⟩
                    simp [addUser, hauth, hch, h0, hpm, hgm, hw, hkadm, hh, hs,
                      uRespCode]
                  · simp [addUser, hauth, hch, h0, hpm, hgm, hw, hkadm, hh, hs] at h

/-- Witness for claim C3 at a successful concrete run. -/
theorem claim_c3_created_account_witness :
    (1234 : Nat) = 1234 ∧ (1000 : Nat) ≤ 1234 ∧ (1234 : Nat) < 2000 ∧
      ("user-" ++ uintToQuint 1234 2) = "user-" ++ uintToQuint 1234 2 ∧
      uRespCode (addUser ⟨1000, 2000, 1000, 2000, "admin"⟩
        ⟨"admin", [1234], fun _ => false, fun _ => .ok,
          fun _ => some ⟨"a", "h", 1234, 1234⟩, fun _ => some ⟨"a", "h", 1234, 1234⟩,
          true, some "ok", "pw"⟩ ⟨[], [], [], []⟩ []).resp = 201 :=
  claim_c3_created_account ⟨1000, 2000, 1000, 2000, "admin"⟩
    ⟨"admin", [1234], fun _ => false, fun _ => .ok,
      fun _ => some ⟨"a", "h", 1234, 1234⟩, fun _ => some ⟨"a", "h", 1234, 1234⟩,
      true, some "ok", "pw"⟩ ⟨[], [], [], []⟩ []
    (by intro c hc; simp at hc; subst hc; decide)
    ("user-" ++ uintToQuint 1234 2) "pw" 1234 1234 (by decide)

theorem takeWhile_idem {α : Type} (p : α → Bool) :
    ∀ l : List α, (l.takeWhile p).takeWhile p = l.takeWhile p := by
  intro l
  induction l with
  | nil => rfl
  | cons x xs ih =>
    cases hx : p x with
    | true => simp [List.takeWhile, hx, ih]
    | false => simp [List.takeWhile, hx]

theorem localPart_idem (s : String) : localPart (localPart s) = localPart s := by
  unfold localPart
  rw [show (String.mk (s.data.takeWhile (fun c => c ≠ Char.ofNat 64))).data =
    s.data.takeWhile (fun c => c ≠ Char.ofNat 64) from rfl, takeWhile_idem]

/-- Claim C6: deleteUser operates on the local part of the authenticated
principal; a name that does not resolve yields 404 user_not_found (so a
repeated delete is a 404, not a 500) and a uid outside [MIN_UID, MAX_UID)
yields 403 — in both cases before any call to Kerberos, LDAP, mkhomedird or
the cache flusher. -/
theorem claim_c6_delete_user (cfg : UsermgrdConfig) (env : DeleteUserEnv)
    (principal : String) :
    deleteUser cfg env principal = deleteUser cfg env (localPart principal) ∧
    (env.nss (localPart principal) = none →
      deleteUser cfg env principal = ⟨.notFound "user_not_found", []⟩ ∧
        uRespCode (deleteUser cfg env principal).resp = 404 ∧
        uRespCode (deleteUser cfg env principal).resp ≠ 500) ∧
    (∀ r, env.nss (localPart principal) = some r →
      ¬(cfg.minUid ≤ r.uid ∧ r.uid < cfg.maxUid) →
      deleteUser cfg env principal = ⟨.forbidden (some "unauthorized"), []⟩ ∧
        uRespCode (deleteUser cfg env principal).resp = 403) := by
  refine ⟨?_, ?_, ?_⟩
  · show deleteUser cfg env principal = deleteUser cfg env (localPart principal)
    unfold deleteUser
    rw [localPart_idem]
  · intro h
    constructor
    · simp [deleteUser, h]
    · constructor <;> simp [deleteUser, h, uRespCode]
  · intro r h hr
    constructor
    · simp [deleteUser, h, hr]
    · simp [deleteUser, h, hr, uRespCode]

/-- Witness for claim C6: deleting an account whose name no longer resolves
answers 404 user_not_found without touching any external system. -/
theorem claim_c6_delete_user_witness :
    deleteUser ⟨1000, 2000, 1000, 2000, "admin"⟩
        ⟨fun _ => none, .gone, true, some ("again", some "t"), [], true, .ok,
          some "ok"⟩ "bob@REALM" =
      ⟨.notFound "user_not_found", []⟩ ∧
    uRespCode (deleteUser ⟨1000, 2000, 1000, 2000, "admin"⟩
        ⟨fun _ => none, .gone, true, some ("again", some "t"), [], true, .ok,
          some "ok"⟩ "bob@REALM").resp = 404 := by
  have h := (claim_c6_delete_user ⟨1000, 2000, 1000, 2000, "admin"⟩
      ⟨fun _ => none, .gone, true, some ("again", some "t"), [], true, .ok,
        some "ok"⟩ "bob@REALM").2.1 rfl
  exact ⟨h.1, h.2.1⟩

/-- Claim C4 shows a code bug: the primary-group check of deleteGroup queries
the LDAP people subtree for the misspelled attribute (gidHumber=<gid>), which
no person entry carries, so the search is empty and the handler never refuses
with 403 primary_group even when the group is someone's primary group — here
alice has gidNumber 5000 and the group's gid is 5000, a gidNumber search
would be non-empty, yet the request succeeds. -/
theorem claim_c4_gidhumber_typo :
    (searchPeopleByAttr [⟨"alice", 5000⟩] "gidNumber" 5000).length > 0 ∧
    (searchPeopleByAttr [⟨"alice", 5000⟩] "gidHumber" 5000).length = 0 ∧
    (deleteGroup ⟨1000, 9000, 1000, 9000, "x"⟩
        ⟨fun g => if g = "g" then some ⟨"g", 5000, ["alice", "bob"]⟩ else none,
          fun u => if u = "alice" then some ⟨"alice", "/h", 1500, 5000⟩ else none,
          [⟨"alice", 5000⟩],
          fun n => if n = "g" then some (some ["alice", "bob"]) else none,
          [], true, fun _ => .ok, fun _ => none⟩ "g" "alice").resp = .okJson ∧
    (deleteGroup ⟨1000, 9000, 1000, 9000, "x"⟩
        ⟨fun g => if g = "g" then some ⟨"g", 5000, ["alice", "bob"]⟩ else none,
          fun u => if u = "alice" then some ⟨"alice", "/h", 1500, 5000⟩ else none,
          [⟨"alice", 5000⟩],
          fun n => if n = "g" then some (some ["alice", "bob"]) else none,
          [], true, fun _ => .ok, fun _ => none⟩ "g" "alice").resp ≠
      .forbidden (some "primary_group") := by
  decide

end Clumsy
